import Mathlib

set_option maxRecDepth 100000

/-!
Verification development for the `webscraper-api` repository
(`src/main.py` and `src/webscrapper_api.py`).

The Python sources are shallowly embedded: pure helper functions become
Lean functions over `String` / `List`, the BeautifulSoup document is an
explicit HTML tree, network activity (HTTP fetches, the headless browser,
the generative-model call, the robots.txt download) is passed in as
explicit oracle arguments, and Python `None` becomes `Option`.
Tree traversals take an explicit `fuel : Nat` argument (always at least
the tree depth) so that every definition is structurally recursive and
evaluates by kernel reduction.
-/

namespace WebScraper

/-! ## Basic string utilities -/

/-- Characters Python's `str.strip()` removes (ASCII whitespace suffices for
the documents modelled here). -/
def isSpaceChar (c : Char) : Bool := c.isWhitespace

/-- Models `str.strip()` on a character list: drop whitespace from both ends. -/
def stripChars (l : List Char) : List Char :=
  ((l.dropWhile isSpaceChar).reverse.dropWhile isSpaceChar).reverse

/-- Models `str.strip()`. -/
def stripStr (s : String) : String := ⟨stripChars s.data⟩

/-- Python slicing `s[:n]`. -/
def strTake (n : Nat) (s : String) : String := ⟨s.data.take n⟩

/-- ASCII lower-casing, as used to model the `re.I` flag. -/
def lowerChar (c : Char) : Char :=
  if 'A' ≤ c ∧ c ≤ 'Z' then Char.ofNat (c.toNat + 32) else c

/-- Models `s.lower()`. -/
def lowerStr (s : String) : String := ⟨s.data.map lowerChar⟩

/-- Whether `needle` occurs as a contiguous substring of `hay`. -/
def infixOf (needle hay : List Char) : Bool :=
  match hay with
  | [] => needle.isEmpty
  | _ :: t => hay.take needle.length == needle || infixOf needle t

/-- Substring containment on strings. -/
def containsSub (hay needle : String) : Bool := infixOf needle.data hay.data

/-- Case-insensitive substring containment (models `re.search(lit, s, re.I)`
for a literal pattern `lit`). -/
def containsCI (hay needle : String) : Bool :=
  infixOf (lowerStr needle).data (lowerStr hay).data

/-- Drop everything up to and including the first occurrence of `needle`;
`none` when `needle` does not occur. -/
def afterFirst (needle : List Char) : List Char → Option (List Char)
  | [] => if needle.isEmpty then some [] else none
  | c :: t =>
    if (c :: t).take needle.length == needle then some ((c :: t).drop needle.length)
    else afterFirst needle t

/-- Models `re.search("a.*b", s)` for literal `a`, `b`: an occurrence of `a`
followed (not overlapping) somewhere later by an occurrence of `b`. -/
def containsSeqCI (hay a b : String) : Bool :=
  match afterFirst (lowerStr a).data (lowerStr hay).data with
  | some rest => infixOf (lowerStr b).data rest
  | none => false

/-! ## Price normalization (`clean_price` in both source files) -/

/-- Maximal leading digit run of a character list, together with the rest. -/
def takeDigits : List Char → List Char × List Char
  | [] => ([], [])
  | c :: cs =>
    if c.isDigit then
      let p := takeDigits cs
      (c :: p.1, p.2)
    else ([], c :: cs)

/-- Leftmost match of the regex `[\d]+(?:[.,]\d+)?` (as in
`re.search(r'[\d]+(?:[.,]\d+)?', val)`): a maximal digit run, optionally
followed by `.` or `,` and a further digit run. -/
def numMatch : List Char → Option (List Char)
  | [] => none
  | c :: cs =>
    if c.isDigit then
      let p := takeDigits (c :: cs)
      match p.2 with
      | s :: r2 =>
        if s = '.' ∨ s = ',' then
          match takeDigits r2 with
          | ([], _) => some p.1
          | (fr, _) => some (p.1 ++ s :: fr)
        else some p.1
      | [] => some p.1
    else numMatch cs

/-- Models `clean_price` (identical logic in `src/main.py` and
`src/webscrapper_api.py`): search for the first numeric token, replace `,`
by `.`, and when the token has no decimal point and more than two digits,
insert a point before the last two digits.  `main.py`'s extra
`if not val: return None` guard is subsumed: the regex never matches the
empty string. -/
def clean_price (val : String) : Option String :=
  match numMatch val.data with
  | none => none
  | some m =>
    let p := m.map (fun c => if c = ',' then '.' else c)
    if '.' ∉ p ∧ p.length > 2 then
      some ⟨p.take (p.length - 2) ++ '.' :: p.drop (p.length - 2)⟩
    else some ⟨p⟩

/-- Predicate for "fixed 2-decimal text": reversed, the string ends in two digits directly
preceded by a point, and carries no other point. -/
def twoDecimalsB (s : String) : Bool :=
  match s.data.reverse with
  | d1 :: d2 :: c :: rest =>
    d1.isDigit && d2.isDigit && (c = '.') && rest.all (fun x => x ≠ '.')
  | _ => false

/-! ## The parsed document (BeautifulSoup tree) -/

/-- A parsed HTML node: an element with tag name, attributes and children,
or a text node. -/
inductive Html where
  | elem (tag : String) (attrs : List (String × String)) (children : List Html)
  | text (s : String)

/-- Tag name of a node (text nodes have none). -/
def tagOf : Html → String
  | .elem t _ _ => t
  | .text _ => ""

/-- Attribute lookup (`elem.get(name)`). -/
def getAttr (name : String) : Html → Option String
  | .elem _ attrs _ => attrs.lookup name
  | .text _ => none

/-- Direct children of a node. -/
def childrenOf : Html → List Html
  | .elem _ _ cs => cs
  | .text _ => []

/-- All text-node strings below (and at) a node, in document order;
`fuel` bounds the recursion depth. -/
def textsF : Nat → Html → List String
  | 0, _ => []
  | _ + 1, .text s => [s]
  | n + 1, .elem _ _ cs => (cs.map (textsF n)).flatten

/-- Models `elem.get_text(" ", strip=True)`: strip every text fragment, drop the
empty ones, join the rest with a single space. -/
def getTextStrip (fuel : Nat) (h : Html) : String :=
  String.intercalate " " (((textsF fuel h).map stripStr).filter (fun s => s ≠ ""))

/-- Models `elem.get_text()`: plain concatenation of the text fragments. -/
def getTextRaw (fuel : Nat) (h : Html) : String :=
  String.join (textsF fuel h)

/-- All element nodes of a subtree, the root included, in document
(pre-order) order. -/
def allElemsF : Nat → Html → List Html
  | 0, _ => []
  | _ + 1, .text _ => []
  | n + 1, .elem t a cs => .elem t a cs :: (cs.map (allElemsF n)).flatten

/-- All element descendants of a node, the node itself excluded — the
search space of BeautifulSoup's `find`/`find_all` on a tag. -/
def descendantsF (fuel : Nat) (h : Html) : List Html :=
  match fuel, h with
  | 0, _ => []
  | _, .text _ => []
  | n + 1, .elem _ _ cs => (cs.map (allElemsF n)).flatten

/-- First descendant satisfying a predicate (`container.find(...)`). -/
def findElem (fuel : Nat) (c : Html) (p : Html → Bool) : Option Html :=
  (descendantsF fuel c).find? p

/-- All descendants satisfying a predicate (`find_all`, and also `select`:
a document is modelled, as in bs4, as a `[document]` node whose descendants
are every element of the page, so soup-level and container-level searches
use the same descendant traversal). -/
def selectElems (fuel : Nat) (doc : Html) (p : Html → Bool) : List Html :=
  (descendantsF fuel doc).filter p

/-- Split on whitespace, dropping empty fragments (Python `str.split()`),
used for the multi-valued `class` attribute. -/
def splitWSAux : List Char → List Char → List String
  | [], acc => if acc.isEmpty then [] else [⟨acc.reverse⟩]
  | c :: t, acc =>
    if isSpaceChar c then
      if acc.isEmpty then splitWSAux t [] else ⟨acc.reverse⟩ :: splitWSAux t []
    else splitWSAux t (c :: acc)

/-- The class tokens of an element (`elem["class"]` as parsed by bs4). -/
def classTokens (h : Html) : List String :=
  match getAttr "class" h with
  | some v => splitWSAux v.data []
  | none => []

/-- CSS `[class*="sub"]`: the raw class attribute value contains `sub`
(case-sensitively). -/
def hasClassSub (sub : String) (h : Html) : Bool :=
  match getAttr "class" h with
  | some v => containsSub v sub
  | none => false

/-- CSS `[name]`: the attribute is present. -/
def hasAttr (name : String) (h : Html) : Bool := (getAttr name h).isSome

/-- bs4 `class_=re.compile('k1|k2|…', re.I)`: some class token contains one
of the literal alternatives, case-insensitively. -/
def classTokenCI (kws : List String) (h : Html) : Bool :=
  (classTokens h).any (fun tok => kws.any (fun kw => containsCI tok kw))

/-- bs4 `attrs={name: value}`: exact attribute match. -/
def attrEq (name value : String) (h : Html) : Bool :=
  getAttr name h == some value

/-- Models `tag.string`: the single text child, looking through a single element
child recursively; `None` otherwise. -/
def tagString : Nat → Html → Option String
  | 0, _ => none
  | _ + 1, .text s => some s
  | n + 1, .elem _ _ cs =>
    match cs with
    | [.text s] => some s
    | [c] => tagString n c
    | _ => none

/-- bs4 truthiness of a found tag: `Tag.__len__` counts children, so a tag
is truthy exactly when it has at least one child. -/
def tagTruthy : Html → Bool
  | .elem _ _ cs => !cs.isEmpty
  | .text s => s ≠ ""

/-! ## URL helpers -/

/-- Models `scheme://netloc` of a URL (empty when no `://` present). -/
def originOf (url : String) : String :=
  match afterFirst "://".data url.data with
  | some rest => ⟨url.data.take (url.data.length - rest.length) ++ rest.takeWhile (fun c => c ≠ '/')⟩
  | none => ""

/-- Models `urlparse(url).netloc`. -/
def netlocOf (url : String) : String :=
  match afterFirst "://".data url.data with
  | some rest => ⟨rest.takeWhile (fun c => c ≠ '/')⟩
  | none => ""

/-- Models `urljoin(base, href)`, modelled for the cases this code base exercises:
absolute hrefs are kept, root-relative hrefs are attached to the base's
origin, other hrefs are appended to the base. -/
def urljoin (base href : String) : String :=
  if href.startsWith "http://" ∨ href.startsWith "https://" then href
  else if href.startsWith "/" then originOf base ++ href
  else base ++ href

/-! ## Records and link discovery -/

/-- A scraped item, the `{title, link, price}` dict of the sources;
`none` is Python `None` / a missing key. -/
structure Record where
  title : Option String
  link : Option String
  price : Option String
deriving DecidableEq

/-- Python truthiness of an optional string. -/
def optTruthy : Option String → Bool
  | some s => s ≠ ""
  | none => false

/-- All `href` values of anchors, in document order
(`soup.find_all("a", href=True)`). -/
def anchorHrefs (fuel : Nat) (doc : Html) : List String :=
  (descendantsF fuel doc).filterMap
    (fun e => if tagOf e == "a" then getAttr "href" e else none)

/-- First-occurrence deduplication of strings
(`list(dict.fromkeys(...))`). -/
def dedupStrings (l : List String) : List String :=
  (l.foldl (fun acc s => if s ∈ acc then acc else acc ++ [s]) [])

/-- Models `find_product_links(soup, base_url)`: absolute URLs of anchors whose
href contains a keyword.  The source builds a Python `set`, whose
iteration order is unspecified; it is modelled as first-occurrence order
(no claim verified here depends on that order). -/
def find_product_links (fuel : Nat) (kws : List String) (doc : Html) (base : String) :
    List String :=
  dedupStrings ((anchorHrefs fuel doc).filterMap
    (fun href =>
      if kws.any (fun kw => containsSub (lowerStr href) kw) then some (urljoin base href)
      else none))

/-! ## Container selectors -/

/-- Models `container_selectors` of `src/main.py` (`extract_with_beautifulsoup`):
CSS attribute-substring matching is case-sensitive on the raw `class`
value. -/
def mainContainerPred (h : Html) : Bool :=
  (tagOf h == "div" &&
    (hasClassSub "product" h ||
     (hasClassSub "item" h && hasClassSub "grid" h) ||
     (hasClassSub "card" h && hasClassSub "product" h) ||
     hasClassSub "grid-item" h || hasClassSub "collection-item" h ||
     hasClassSub "ProductCard" h || hasClassSub "product-item" h ||
     hasAttr "data-product" h)) ||
  (tagOf h == "li" && hasClassSub "product" h) ||
  (tagOf h == "article" && (hasClassSub "product" h || hasAttr "data-product" h)) ||
  (tagOf h == "section" && hasClassSub "product" h)

/-- Models `container_selectors` of `src/webscrapper_api.py`. -/
def wsContainerPred (h : Html) : Bool :=
  (tagOf h == "div" &&
    (hasClassSub "product" h || hasClassSub "grid" h || hasClassSub "collection" h ||
     hasClassSub "item" h || hasClassSub "card" h)) ||
  (tagOf h == "li" && hasClassSub "product" h) ||
  (tagOf h == "article" && hasClassSub "product" h) ||
  (tagOf h == "section" && hasClassSub "product" h)

/-! ## Price extraction over the tree -/

/-- Character class `[\d.,]` of the script-price regex. -/
def isPriceTokChar (c : Char) : Bool := c.isDigit || c = '.' || c = ','

/-- Attempt the regex `"price"\s*[:=]\s*"?([\d.,]+)"?` at the head of the
list, returning the capture group. -/
def scriptPriceAt (l : List Char) : Option (List Char) :=
  if l.take 7 == ('"' :: 'p' :: 'r' :: 'i' :: 'c' :: 'e' :: '"' :: []) then
    match (l.drop 7).dropWhile isSpaceChar with
    | c :: r2 =>
      if c = ':' ∨ c = '=' then
        let r3 := r2.dropWhile isSpaceChar
        let r4 := match r3 with
          | '"' :: rr => rr
          | _ => r3
        let g := r4.takeWhile isPriceTokChar
        if g.isEmpty then none else some g
      else none
    | [] => none
  else none

/-- Models `re.search(r'"price"\s*[:=]\s*"?([\d.,]+)"?', s)`: leftmost match. -/
def scriptPriceSearch : List Char → Option (List Char)
  | [] => none
  | c :: t =>
    match scriptPriceAt (c :: t) with
    | some g => some g
    | none => scriptPriceSearch t

/-- Models `.string` values of script tags
(`soup.find_all("script", string=True)`). -/
def scriptStrings (fuel : Nat) (doc : Html) : List String :=
  (descendantsF fuel doc).filterMap
    (fun e => if tagOf e == "script" then tagString fuel e else none)

/-- The shared script-tag price fallback of both `extract_price` variants:
the first script whose body matches the regex determines the result
(`return clean_price(m.group(1))`, even when that is `None`). -/
def scriptPriceScan (fuel : Nat) (doc : Html) : Option String :=
  go (scriptStrings fuel doc)
where
  go : List String → Option String
    | [] => none
    | s :: ss =>
      if s ≠ "" then
        match scriptPriceSearch s.data with
        | some g => clean_price ⟨g⟩
        | none => go ss
      else go ss

/-- The attribute list probed by both `extract_price` variants. -/
def priceAttrNames : List String := ["content", "data-price", "aria-label", "value"]

/-- Models `src/main.py` price-element cascade. -/
def mainPricePatterns : List (Html → Bool) :=
  [fun h => tagOf h == "span" && classTokenCI ["price", "amount", "money", "value", "cost"] h,
   fun h => tagOf h == "div" && classTokenCI ["price", "amount", "money", "value", "cost"] h,
   fun h => tagOf h == "p" && classTokenCI ["price", "amount", "money", "value", "cost"] h,
   fun h => attrEq "itemprop" "price" h,
   fun h => classTokenCI ["price"] h]

/-- Models `src/main.py` attribute probing: the first attribute whose value is
truthy and cleans to a price wins; otherwise the cascade continues. -/
def mainAttrClean (e : Html) : List String → Option String
  | [] => none
  | a :: rest =>
    match getAttr a e with
    | some v =>
      if v ≠ "" then
        match clean_price (stripStr v) with
        | some c => some c
        | none => mainAttrClean e rest
      else mainAttrClean e rest
    | none => mainAttrClean e rest

/-- Models `extract_price` of `src/main.py`: element cascade, then attributes,
then the script fallback. -/
def extract_price_main (fuel : Nat) (container : Html) (soup : Option Html) :
    Option String :=
  go mainPricePatterns
where
  go : List (Html → Bool) → Option String
    | [] =>
      match soup with
      | some d => scriptPriceScan fuel d
      | none => none
    | p :: ps =>
      match findElem fuel container p with
      | some e =>
        let txt := getTextStrip fuel e
        match (if txt ≠ "" then clean_price txt else none) with
        | some c => some c
        | none =>
          match mainAttrClean e priceAttrNames with
          | some c => some c
          | none => go ps
      | none => go ps

/-- Models `src/webscrapper_api.py` price-element cascade. -/
def wsPricePatterns : List (Html → Bool) :=
  [fun h => tagOf h == "span" && classTokenCI ["price", "amount", "money", "value"] h,
   fun h => tagOf h == "div" && classTokenCI ["price", "amount", "money", "value"] h,
   fun h => classTokenCI ["current-price", "regular-price"] h,
   fun h => attrEq "itemprop" "price" h]

/-- First truthy attribute value among `priceAttrNames`. -/
def wsFirstAttr (e : Html) : List String → Option String
  | [] => none
  | a :: rest =>
    match getAttr a e with
    | some v => if v ≠ "" then some v else wsFirstAttr e rest
    | none => wsFirstAttr e rest

/-- Models `extract_price` of `src/webscrapper_api.py`: once an element of the
cascade yields nonempty text (or a truthy attribute), the function returns
`clean_price` of it unconditionally — even `None` — so later patterns and
the script fallback are skipped in that case. -/
def extract_price_ws (fuel : Nat) (container : Html) (soup : Option Html) :
    Option String :=
  go wsPricePatterns
where
  go : List (Html → Bool) → Option String
    | [] =>
      match soup with
      | some d => scriptPriceScan fuel d
      | none => none
    | p :: ps =>
      match findElem fuel container p with
      | some e =>
        let txt := getTextStrip fuel e
        if txt ≠ "" then clean_price txt
        else
          match wsFirstAttr e priceAttrNames with
          | some v => clean_price (stripStr v)
          | none => go ps
      | none => go ps

/-! ## Title extraction -/

def headingTags : List String := ["h1", "h2", "h3", "h4", "h5", "h6"]

/-- Heading cascade shared by both sources: for each tag in order, look at
the first such descendant only; take its text when nonempty. -/
def headingTitle (fuel : Nat) (c : Html) : Option String :=
  go headingTags
where
  go : List String → Option String
    | [] => none
    | t :: ts =>
      match findElem fuel c (fun e => tagOf e == t) with
      | some e =>
        let s := getTextStrip fuel e
        if s ≠ "" then some s else go ts
      | none => go ts

/-- Pattern cascade: first pattern whose first match has nonempty text. -/
def patternTitle (fuel : Nat) (c : Html) : List (Html → Bool) → Option String
  | [] => none
  | p :: ps =>
    match findElem fuel c p with
    | some e =>
      let s := getTextStrip fuel e
      if s ≠ "" then some s else patternTitle fuel c ps
    | none => patternTitle fuel c ps

/-- Models `title_patterns` of `src/main.py` (`extract_product_info`). -/
def mainTitlePatterns : List (Html → Bool) :=
  [fun h => tagOf h == "a" &&
      classTokenCI ["title", "name", "product-name", "product-title", "heading"] h,
   fun h => tagOf h == "div" &&
      classTokenCI ["title", "name", "product-name", "product-title", "heading"] h,
   fun h => tagOf h == "span" &&
      classTokenCI ["title", "name", "product-name", "product-title", "heading"] h,
   fun h => attrEq "itemprop" "name" h,
   fun h => (classTokens h).any
      (fun tok => containsSeqCI tok "product" "title" || containsSeqCI tok "product" "name")]

/-- Models `title_patterns` of `src/webscrapper_api.py`. -/
def wsTitlePatterns : List (Html → Bool) :=
  [fun h => tagOf h == "a" && classTokenCI ["title", "name"] h,
   fun h => tagOf h == "div" && classTokenCI ["title", "name"] h,
   fun h => tagOf h == "span" && classTokenCI ["title", "name"] h,
   fun h => classTokenCI ["product-title", "product_name", "product-name"] h,
   fun h => attrEq "itemprop" "name" h]

/-- The `title` variable of `extract_product_info` in `src/main.py`:
headings are NOT truncated; pattern and image-alt titles are cut to 200
characters. -/
def mainTitleRaw (fuel : Nat) (c : Html) : Option String :=
  match headingTitle fuel c with
  | some t => some t
  | none =>
    match patternTitle fuel c mainTitlePatterns with
    | some t => some (strTake 200 t)
    | none =>
      match findElem fuel c (fun e => tagOf e == "img") with
      | some img =>
        match getAttr "alt" img with
        | some a => if a ≠ "" then some (strTake 200 (stripStr a)) else none
        | none => none
      | none => none

/-- Models `extract_product_info(container, base_url, soup)` of `src/main.py`. -/
def mainProductInfo (fuel : Nat) (base : String) (soup : Html) (c : Html) : Record :=
  let title :=
    match mainTitleRaw fuel c with
    | some t => if t ≠ "" then some t else none
    | none => none
  let link :=
    match findElem fuel c (fun e => tagOf e == "a" && hasAttr "href" e) with
    | some a =>
      match getAttr "href" a with
      | some h => if h ≠ "" then urljoin base h else base
      | none => base
    | none => base
  { title := title, link := some link, price := extract_price_main fuel c (some soup) }

/-- The `title` variable of the container extraction in
`src/webscrapper_api.py`: headings, then patterns, then image alt, then —
when still falsy — the page `<title>` text.  Nothing is truncated. -/
def wsTitleRaw (fuel : Nat) (c : Html) (soup : Html) : Option String :=
  let t3 :=
    match headingTitle fuel c with
    | some t => some t
    | none =>
      match patternTitle fuel c wsTitlePatterns with
      | some t => some t
      | none =>
        match findElem fuel c (fun e => tagOf e == "img") with
        | some img =>
          match getAttr "alt" img with
          | some a => if a ≠ "" then some (stripStr a) else none
          | none => none
        | none => none
  if optTruthy t3 then t3
  else
    match findElem fuel soup (fun e => tagOf e == "title") with
    | some te => if tagTruthy te then some (getTextStrip fuel te) else t3
    | none => t3

/-- One container's record in `extract_with_beautifulsoup` /
`extract_with_selenium` of `src/webscrapper_api.py`; `none` when the
`title or price` emission guard fails. -/
def wsItemOf (fuel : Nat) (url : String) (soup : Html) (c : Html) : Option Record :=
  let title :=
    match wsTitleRaw fuel c soup with
    | some t => if t ≠ "" then some t else none
    | none => none
  let link :=
    match findElem fuel c (fun e => tagOf e == "a" && hasAttr "href" e) with
    | some a =>
      match getAttr "href" a with
      | some h => if h ≠ "" then urljoin url h else url
      | none => url
    | none => url
  let price := extract_price_ws fuel c (some soup)
  if optTruthy title || optTruthy price then
    some { title := title, link := some link, price := price }
  else none

/-- One container's record on a followed product page in
`src/webscrapper_api.py`: identical, but the link is the product URL. -/
def wsDetailItemOf (fuel : Nat) (prodLink : String) (soup : Html) (c : Html) :
    Option Record :=
  let title :=
    match wsTitleRaw fuel c soup with
    | some t => if t ≠ "" then some t else none
    | none => none
  let price := extract_price_ws fuel c (some soup)
  if optTruthy title || optTruthy price then
    some { title := title, link := some prodLink, price := price }
  else none

/-! ## The per-URL pipeline of `src/webscrapper_api.py`
(`extract_with_beautifulsoup`; `extract_with_selenium` is the same logic
over the rendered markup).  Network fetches of followed product pages come
from `fetchPage` (`none` = the request raised, `except: continue`); the
generative-model call is the `llmOut` oracle (`none` = call failed or no
array found). -/

/-- The document-title placeholder text of `src/webscrapper_api.py`:
`soup.find('title').get_text() if soup.find('title') else "No title"`
(a found but childless tag is falsy in bs4). -/
def wsPlaceholderTitle (fuel : Nat) (doc : Html) : String :=
  match findElem fuel doc (fun e => tagOf e == "title") with
  | some te => if tagTruthy te then getTextRaw fuel te else "No title"
  | none => "No title"

/-- The containers the ws pipeline actually iterates: the selected set is
DISCARDED whenever more than one container is found
(`if len(containers) > 1: containers = []`, src/webscrapper_api.py:225-227). -/
def wsEffectiveContainers (fuel : Nat) (doc : Html) : List Html :=
  let cs := selectElems fuel doc wsContainerPred
  if cs.length > 1 then [] else cs

/-- All pre-placeholder stages of `extract_with_beautifulsoup` in
`src/webscrapper_api.py`: the (possibly discarded) container loop, the
product-link following, the generative-model fallback. -/
def wsStagesResult (fuel : Nat) (url : String) (doc : Html) (limit : Nat)
    (fetchPage : String → Option Html) (llmOut : Option (List Record)) : List Record :=
  let product_links := dedupStrings (find_product_links fuel ["product"] doc url)
  let containers := wsEffectiveContainers fuel doc
  let data1 := (containers.take limit).foldl
    (fun acc c =>
      match wsItemOf fuel url doc c with
      | some r => acc ++ [r]
      | none => acc) []
  let data2 :=
    if (containers.isEmpty || data1.isEmpty) && !product_links.isEmpty then
      (product_links.take (min 5 limit)).foldl
        (fun acc pl =>
          match fetchPage pl with
          | none => acc
          | some doc2 =>
            ((selectElems fuel doc2 wsContainerPred).take 3).foldl
              (fun acc2 c =>
                match wsDetailItemOf fuel pl doc2 c with
                | some r => acc2 ++ [r]
                | none => acc2) acc) data1
    else data1
  if data2.isEmpty && !containers.isEmpty then
    match llmOut with
    | some items =>
      data2 ++ items.map (fun it =>
        { it with link := some (match it.link with
            | some l => if l ≠ "" then urljoin url l else url
            | none => url) })
    | none => data2
  else data2

/-- Models `extract_with_beautifulsoup(url)` of `src/webscrapper_api.py`, given
the already-fetched page. -/
def wsExtractCore (fuel : Nat) (url : String) (doc : Html) (limit : Nat)
    (fetchPage : String → Option Html) (llmOut : Option (List Record)) : List Record :=
  let data := wsStagesResult fuel url doc limit fetchPage llmOut
  if data.isEmpty then
    [{ title := some (wsPlaceholderTitle fuel doc), link := some url, price := none }]
  else data

/-! ## The per-URL pipeline of `src/main.py`
(`extract_with_beautifulsoup(url, product_limit)`). -/

/-- The document-title placeholder text of `src/main.py`:
`soup.find('title').get_text() if soup.find('title') else "No products found"`. -/
def mainPlaceholderTitle (fuel : Nat) (doc : Html) : String :=
  match findElem fuel doc (fun e => tagOf e == "title") with
  | some te => if tagTruthy te then getTextRaw fuel te else "No products found"
  | none => "No products found"

/-- The keywords of the listing/collection-link scan in `src/main.py`. -/
def listingKeywords : List String :=
  ["collections", "collection", "category", "shop", "store", "products", "all", "catalog"]

/-- Listing links of `src/main.py`: same-host anchors whose href contains a
listing keyword, first 3.  The source collects a Python `set` (unspecified
order), modelled as first-occurrence order. -/
def mainListingLinks (fuel : Nat) (doc : Html) (url : String) : List String :=
  (dedupStrings ((anchorHrefs fuel doc).filterMap
    (fun href =>
      if listingKeywords.any (fun kw => containsSub (lowerStr href) kw) then
        let abs := urljoin url href
        if netlocOf abs == netlocOf url then some abs else none
      else none))).take 3

/-- The listing-page stage of `src/main.py`: extract one record per
container of the current page when the cascade found at least two,
skipping records with neither title nor price and records whose title
duplicates one already collected. -/
def mainListingStage (fuel : Nat) (url : String) (doc : Html) (limit : Nat) :
    List Record :=
  let containers := selectElems fuel doc mainContainerPred
  if containers.length ≥ 2 then
    (containers.take limit).foldl
      (fun acc c =>
        let item := mainProductInfo fuel url doc c
        if (optTruthy item.title || optTruthy item.price) &&
            !(acc.any (fun d => d.title == item.title)) then acc ++ [item]
        else acc) []
  else []

/-- The collection-pages stage of `src/main.py`: fetch up to 3 listing
links and keep extracting until the limit; a failed fetch is skipped. -/
def mainCollectionStage (fuel : Nat) (doc : Html) (url : String) (limit : Nat)
    (fetchPage : String → Option Html) (data1 : List Record) : List Record :=
  let listing_links := mainListingLinks fuel doc url
  if data1.length < limit ∧ listing_links ≠ [] then
    listing_links.foldl
      (fun acc lurl =>
        if acc.length ≥ limit then acc
        else
          match fetchPage lurl with
          | none => acc
          | some ldoc =>
            (selectElems fuel ldoc mainContainerPred).foldl
              (fun a c =>
                if a.length ≥ limit then a
                else
                  let item := mainProductInfo fuel lurl ldoc c
                  if (optTruthy item.title || optTruthy item.price) &&
                      !(a.any (fun d => d.title == item.title)) then a ++ [item]
                  else a) acc) data1
  else data1

/-- Title of a followed product page in `src/main.py`: `<h1>` text, else
`og:title` meta content, else document title.  The truthiness test on a
found tag is bs4's child count; a childless `<meta>` is always falsy. -/
def mainDetailTitle (fuel : Nat) (d2 : Html) : Option String :=
  let t0 :=
    match findElem fuel d2 (fun e => tagOf e == "h1") with
    | some h1 => if tagTruthy h1 then some (getTextStrip fuel h1) else none
    | none => none
  let t1 :=
    if optTruthy t0 then t0
    else
      match findElem fuel d2
          (fun e => tagOf e == "meta" && attrEq "property" "og:title" e) with
      | some mt => if tagTruthy mt then some ((getAttr "content" mt).getD "") else t0
      | none => t0
  if optTruthy t1 then t1
  else
    match findElem fuel d2 (fun e => tagOf e == "title") with
    | some pt => if tagTruthy pt then some (getTextStrip fuel pt) else t1
    | none => t1

/-- The product-link-following stage of `src/main.py`. -/
def mainDetailStage (fuel : Nat) (doc : Html) (url : String) (limit : Nat)
    (fetchPage : String → Option Html) (data2 : List Record) : List Record :=
  if data2.length < limit then
    let plinks := (dedupStrings
      (find_product_links fuel ["product", "item", "detail"] doc url)).take limit
    plinks.foldl
      (fun acc pl =>
        if acc.length ≥ limit then acc
        else
          match fetchPage pl with
          | none => acc
          | some d2 =>
            let title := mainDetailTitle fuel d2
            let price := extract_price_main fuel d2 (some d2)
            if optTruthy title || optTruthy price then
              let item : Record :=
                { title := match title with
                    | some t => if t ≠ "" then some (strTake 200 t) else none
                    | none => none,
                  link := some pl, price := price }
              if !(acc.any (fun d => d.title == item.title)) then acc ++ [item] else acc
            else acc) data2
  else data2

/-- All pre-placeholder stages of `src/main.py`'s
`extract_with_beautifulsoup`. -/
def mainStagesResult (fuel : Nat) (url : String) (doc : Html) (limit : Nat)
    (fetchPage : String → Option Html) : List Record :=
  mainDetailStage fuel doc url limit fetchPage
    (mainCollectionStage fuel doc url limit fetchPage
      (mainListingStage fuel url doc limit))

/-- Models `extract_with_beautifulsoup(url, product_limit)` of `src/main.py`,
given the already-fetched page. -/
def mainExtractCore (fuel : Nat) (url : String) (doc : Html) (limit : Nat)
    (fetchPage : String → Option Html) : List Record :=
  let data := mainStagesResult fuel url doc limit fetchPage
  if data.isEmpty then
    [{ title := some (mainPlaceholderTitle fuel doc), link := some url, price := none }]
  else data

/-! ## Politeness checker (`check_robots_txt`, src/webscrapper_api.py) -/

/-- The dict returned by `check_robots_txt`.  The crawl delay is a rational
(`1.0` is exact). -/
structure RobotsDecision where
  url : String
  status : String
  can_fetch : Bool
  crawl_delay : ℚ
deriving DecidableEq

/-- Models `check_robots_txt(url)`.  The robots.txt download and parse is the
`fetchParse` oracle: `.ok (allowed, delay)` is a successful
`rp.read()` with `rp.can_fetch("*", url)` and `rp.crawl_delay("*")`;
`.error e` is any raised exception.  The cache is read-only here (the
source also inserts on success; no claim depends on the insertion). -/
def check_robots_txt (cache : List (String × RobotsDecision))
    (fetchParse : Except String (Bool × Option ℚ)) (url : String) : RobotsDecision :=
  let robot_url := originOf url ++ "/robots.txt"
  match cache.lookup robot_url with
  | some r => r
  | none =>
    match fetchParse with
    | .ok pr =>
      { url := url,
        status := if pr.1 then "allowed" else "disallowed",
        can_fetch := pr.1,
        crawl_delay := match pr.2 with
          | some d => if d = 0 then 1 else d    -- `rp.crawl_delay("*") or 1.0`
          | none => 1 }
    | .error _ =>
      { url := url, status := "no_robots_txt", can_fetch := true, crawl_delay := 1 }

/-! ## The orchestrator state machine (`create_workflow`,
src/webscrapper_api.py).  The graph is linear:
analyze → check_robots → extract → save, every edge unconditional. -/

/-- Models `analyze_website`'s result dict (the error note is irrelevant here). -/
structure AnalysisResult where
  is_dynamic : Bool
  is_ecommerce : Bool
  recommended_method : String
deriving DecidableEq

/-- The `ScraperState` TypedDict. -/
structure ScraperState where
  urls : List String
  url : Option String
  analysis_result : Option AnalysisResult
  robots_check : Option RobotsDecision
  extracted_data : List Record
  error_msg : Option String
  status : String
deriving DecidableEq

/-- The `initial_state` built by the endpoints. -/
def initialState (urls : List String) : ScraperState :=
  { urls := urls, url := none, analysis_result := none, robots_check := none,
    extracted_data := [], error_msg := none, status := "initialized" }

/-- Models `state.get("url") or (state.get("urls", [])[0] if state.get("urls") else None)`. -/
def firstUrl (s : ScraperState) : Option String :=
  match s.url with
  | some u => if u ≠ "" then some u else s.urls.head?
  | none => s.urls.head?

/-- Models `analyze_node`; the network analysis is the oracle. -/
def analyze_node (analyzeO : String → AnalysisResult) (s : ScraperState) : ScraperState :=
  match firstUrl s with
  | none => { s with error_msg := some "No URL provided", status := "failed" }
  | some u => { s with analysis_result := some (analyzeO u), status := "analyzed" }

/-- Models `check_robots_node`; the robots lookup is the oracle (for a missing
URL, `check_robots_txt(None)` hits its own except branch and returns the
permissive default). -/
def check_robots_node (robotsO : String → RobotsDecision) (s : ScraperState) :
    ScraperState :=
  match firstUrl s with
  | some u => { s with robots_check := some (robotsO u) }
  | none =>
    { s with robots_check := some ⟨"", "no_robots_txt", true, 1⟩ }

/-- The inner loop of `extract_node`'s URL expansion: append unseen links,
stopping (inner `break` only) once the expanded list has reached 10. -/
def expandLinks (seen expanded : List String) : List String → List String × List String
  | [] => (seen, expanded)
  | l :: ls =>
    if l ∈ seen then expandLinks seen expanded ls
    else
      let expanded2 := expanded ++ [l]
      if expanded2.length ≥ 10 then (l :: seen, expanded2)
      else expandLinks (l :: seen) expanded2 ls

/-- Models `extract_node`.  `fetchPage` models the expansion fetch (`none` = the
request raised, falling to the `except` branch); `bsO`/`selO` model
`extract_with_beautifulsoup` / `extract_with_selenium` on one URL (their
returned `data` lists). -/
def extract_node (fuel : Nat) (fetchPage : String → Option Html)
    (bsO selO : String → List Record) (s : ScraperState) : ScraperState :=
  if !((s.robots_check.map (fun r => r.can_fetch)).getD true) then
    { s with error_msg := some "Blocked by robots.txt", status := "blocked" }
  else
    let input_urls := if s.urls ≠ [] then s.urls else [s.url.getD ""]
    let step := input_urls.foldl
      (fun (acc : List String × List String) u =>
        match fetchPage u with
        | none => (acc.1, acc.2 ++ [u])
        | some d =>
          let links := find_product_links fuel ["product"] d u
          let acc2 := expandLinks acc.1 acc.2 links
          if links.isEmpty then (acc2.1, acc2.2 ++ [u]) else acc2)
      ([], [])
    let final_urls := (dedupStrings step.2).take 10
    let is_dyn := (s.analysis_result.map (fun a => a.is_dynamic)).getD false
    let all_data := final_urls.foldl
      (fun acc u =>
        acc ++ ((if is_dyn then selO u else bsO u).map
          (fun r => { title := r.title, link := r.link, price := r.price : Record })))
      []
    { s with extracted_data := all_data,
             status := if all_data.isEmpty then "no_data" else "extracted" }

/-- The batch deduplication of `save_node`: keep a record when its link is
truthy and unseen. -/
def dedupByLink (l : List Record) : List Record :=
  go [] l
where
  go (seen : List String) : List Record → List Record
    | [] => []
    | r :: rs =>
      match r.link with
      | some s => if s ≠ "" ∧ s ∉ seen then r :: go (s :: seen) rs else go seen rs
      | none => go seen rs

/-- Models `save_node` (the `final_output` count/timestamp dict is not modelled;
no claim mentions it). -/
def save_node (s : ScraperState) : ScraperState :=
  if s.extracted_data.isEmpty then
    { s with error_msg := some "No data to save", status := "failed" }
  else
    { s with extracted_data := dedupByLink s.extracted_data, status := "completed" }

/-- Models `workflow.ainvoke(initial_state)`: the four nodes in sequence. -/
def runWorkflow (fuel : Nat) (analyzeO : String → AnalysisResult)
    (robotsO : String → RobotsDecision) (fetchPage : String → Option Html)
    (bsO selO : String → List Record) (urls : List String) : ScraperState :=
  save_node (extract_node fuel fetchPage bsO selO
    (check_robots_node robotsO (analyze_node analyzeO (initialState urls))))

/-- Models `/scrape` of `src/webscrapper_api.py` after validation: run the
workflow; when `use_selenium` is set, discard its records and return the
concatenated per-URL selenium extractions instead.  Result is
`(records, data)`. -/
def scrape_endpoint (fuel : Nat) (analyzeO : String → AnalysisResult)
    (robotsO : String → RobotsDecision) (fetchPage : String → Option Html)
    (bsO selO : String → List Record) (urls : List String) (useSelenium : Bool) :
    Nat × List Record :=
  let result := runWorkflow fuel analyzeO robotsO fetchPage bsO selO urls
  let result :=
    if useSelenium then
      { result with
        extracted_data := urls.foldl (fun acc u => acc ++ selO u) [],
        status := "completed" }
    else result
  (result.extracted_data.length, result.extracted_data)

/-! ## Batch finalization of `src/main.py` (`scrape_website`,
lines 435-456). -/

/-- Deduplication on the `(title, link)` key, dropping empty titles
(`if key not in seen and key[0]`). -/
def dedupTitleLink (l : List Record) : List Record :=
  go [] l
where
  go (seen : List (String × String)) : List Record → List Record
    | [] => []
    | r :: rs =>
      let k := (r.title.getD "", r.link.getD "")
      if k ∉ seen ∧ k.1 ≠ "" then r :: go (k :: seen) rs else go seen rs

/-- Lexicographic comparison of character lists by code point (Python's
string ordering). -/
def charListLe : List Char → List Char → Bool
  | [], _ => true
  | _ :: _, [] => false
  | a :: as, b :: bs =>
    if a.toNat < b.toNat then true
    else if b.toNat < a.toNat then false
    else charListLe as bs

/-- The sort key `(x.get("price") is None, x.get("title", ""))` as a
boolean total preorder. -/
def recKeyLe (a b : Record) : Bool :=
  if a.price.isNone = b.price.isNone then
    charListLe (a.title.getD "").data (b.title.getD "").data
  else !a.price.isNone && b.price.isNone

/-- Stable insertion into a key-sorted list (ties keep insertion
priority, matching Python's stable `list.sort`). -/
def orderedInsertRec (x : Record) : List Record → List Record
  | [] => [x]
  | y :: ys => if recKeyLe x y then x :: y :: ys else y :: orderedInsertRec x ys

/-- Stable sort by `recKeyLe`, modelling `list.sort(key=...)`. -/
def insertionSortRec : List Record → List Record
  | [] => []
  | x :: xs => orderedInsertRec x (insertionSortRec xs)

/-- Lines 435-456 of `src/main.py`: dedup, sort, then build the response
whose `data` is truncated to `product_limit * len(urls)` records while
`total_items` counts the pre-truncation unique list. -/
def mainFinalize (all_data : List Record) (limit nurls : Nat) : List Record × Nat :=
  let uniq := dedupTitleLink all_data
  let sorted := insertionSortRec uniq
  (sorted.take (limit * nurls), uniq.length)

/-! ## Concrete documents used by the claim theorems -/

/-- One product card of the synthetic listing page of the spec's test
property: class `product-card`, an `<h2>` title, a `<span class="price">`
of `$9.00`. -/
def mkCard (t : String) : Html :=
  .elem "div" [("class", "product-card")]
    [.elem "h2" [] [.text t],
     .elem "span" [("class", "price")] [.text "$9.00"]]

/-- The synthetic listing page: three product cards in document order. -/
def synthListingPage : Html :=
  .elem "[document]" []
    [.elem "html" []
      [.elem "body" [] [mkCard "Item One", mkCard "Item Two", mkCard "Item Three"]]]

/-- A 250-character title. -/
def longTitleA : String := ⟨List.replicate 250 'a'⟩

/-- A second 250-character title. -/
def longTitleB : String := ⟨List.replicate 250 'b'⟩

/-- A page with two product containers whose `<h2>` titles have 250
characters. -/
def longTitlePage : Html :=
  .elem "[document]" []
    [.elem "html" []
      [.elem "body" []
        [.elem "div" [("class", "product")] [.elem "h2" [] [.text longTitleA]],
         .elem "div" [("class", "product")] [.elem "h2" [] [.text longTitleB]]]]]

/-- A page with no containers, no anchors and no `<title>`. -/
def bareDoc : Html :=
  .elem "[document]" []
    [.elem "html" [] [.elem "body" [] [.text "hello"]]]

/-- A container holding a price of `$9.5`. -/
def nineFiftyCard : Html :=
  .elem "div" [("class", "product")]
    [.elem "span" [("class", "price")] [.text "$9.5"]]

end WebScraper



namespace WebScraper

/-! ## Supporting lemmas -/

theorem strTake_length_le (n : Nat) (s : String) : (strTake n s).length ≤ n := by
  show (s.data.take n).length ≤ n
  simp [List.length_take]

theorem takeDigits_of_all :
    ∀ (l : List Char), l.all Char.isDigit = true → takeDigits l = (l, []) := by
  intro l
  induction l with
  | nil => intro _; rfl
  | cons c cs ih =>
    intro h
    simp only [List.all_cons, Bool.and_eq_true] at h
    simp [takeDigits, h.1, ih h.2]

theorem numMatch_of_all (c : Char) (cs : List Char)
    (h : (c :: cs).all Char.isDigit = true) : numMatch (c :: cs) = some (c :: cs) := by
  have h1 : c.isDigit = true := by
    simp only [List.all_cons, Bool.and_eq_true] at h
    exact h.1
  simp [numMatch, h1, takeDigits_of_all _ h]

theorem map_comma_of_digits :
    ∀ (l : List Char), l.all Char.isDigit = true →
      l.map (fun c => if c = ',' then '.' else c) = l := by
  intro l
  induction l with
  | nil => intro _; rfl
  | cons c cs ih =>
    intro h
    simp only [List.all_cons, Bool.and_eq_true] at h
    have hc : c ≠ ',' := by
      intro e
      rw [e] at h
      exact absurd h.1 (by decide)
    simp [hc, ih h.2]

theorem digit_ne_dot (c : Char) (h : c.isDigit = true) : c ≠ '.' := by
  intro e
  rw [e] at h
  exact absurd h (by decide)

theorem dot_not_mem_of_digits (l : List Char) (h : l.all Char.isDigit = true) :
    '.' ∉ l := by
  intro hm
  have := List.all_eq_true.mp h '.' hm
  exact absurd this (by decide)

theorem orderedInsertRec_length (x : Record) :
    ∀ l : List Record, (orderedInsertRec x l).length = l.length + 1 := by
  intro l
  induction l with
  | nil => rfl
  | cons y ys ih =>
    by_cases h : recKeyLe x y = true
    · simp [orderedInsertRec, h]
    · simp [orderedInsertRec, h, ih]

theorem insertionSortRec_length :
    ∀ l : List Record, (insertionSortRec l).length = l.length := by
  intro l
  induction l with
  | nil => rfl
  | cons x xs ih =>
    simp [insertionSortRec, orderedInsertRec_length, ih]

theorem dedupGo_sublist :
    ∀ (l : List Record) (seen : List String), (dedupByLink.go seen l).Sublist l := by
  intro l
  induction l with
  | nil => intro seen; simp [dedupByLink.go]
  | cons r rs ih =>
    intro seen
    cases h : r.link with
    | none =>
      simp only [dedupByLink.go, h]
      exact (ih seen).cons r
    | some s =>
      simp only [dedupByLink.go, h]
      by_cases hs : s ≠ "" ∧ s ∉ seen
      · rw [if_pos hs]
        exact (ih (s :: seen)).cons₂ r
      · rw [if_neg hs]
        exact (ih seen).cons r

theorem dedupGo_mem :
    ∀ (l : List Record) (seen : List String) (r : Record),
      r ∈ dedupByLink.go seen l → ∃ s, r.link = some s ∧ s ≠ "" ∧ s ∉ seen := by
  intro l
  induction l with
  | nil => intro seen r h; simp [dedupByLink.go] at h
  | cons x xs ih =>
    intro seen r h
    cases hx : x.link with
    | none =>
      simp only [dedupByLink.go, hx] at h
      exact ih seen r h
    | some s =>
      simp only [dedupByLink.go, hx] at h
      by_cases hs : s ≠ "" ∧ s ∉ seen
      · rw [if_pos hs] at h
        rcases List.mem_cons.mp h with he | ht
        · exact ⟨s, he ▸ hx, hs⟩
        · obtain ⟨s2, hl2, hne2, hnin2⟩ := ih (s :: seen) r ht
          exact ⟨s2, hl2, hne2, fun hmem => hnin2 (List.mem_cons_of_mem s hmem)⟩
      · rw [if_neg hs] at h
        exact ih seen r h

theorem dedupGo_pairwise :
    ∀ (l : List Record) (seen : List String),
      (dedupByLink.go seen l).Pairwise (fun a b => a.link ≠ b.link) := by
  intro l
  induction l with
  | nil => intro seen; simp [dedupByLink.go]
  | cons r rs ih =>
    intro seen
    cases h : r.link with
    | none =>
      simp only [dedupByLink.go, h]
      exact ih seen
    | some s =>
      simp only [dedupByLink.go, h]
      by_cases hs : s ≠ "" ∧ s ∉ seen
      · rw [if_pos hs]
        refine List.Pairwise.cons ?_ (ih (s :: seen))
        intro b hb
        obtain ⟨s2, hl2, _, hnin2⟩ := dedupGo_mem rs (s :: seen) b hb
        rw [h, hl2]
        intro hcontra
        injection hcontra with hss
        exact hnin2 (hss ▸ List.mem_cons_self s seen)
      · rw [if_neg hs]
        exact ih seen

theorem dedupGo_cons_some (seen : List String) (r : Record) (rs : List Record)
    (s : String) (h : r.link = some s) :
    dedupByLink.go seen (r :: rs) =
      if s ≠ "" ∧ s ∉ seen then r :: dedupByLink.go (s :: seen) rs
      else dedupByLink.go seen rs := by
  simp only [dedupByLink.go, h]

theorem dedupGo_idem :
    ∀ (l : List Record) (seen : List String),
      dedupByLink.go seen (dedupByLink.go seen l) = dedupByLink.go seen l := by
  intro l
  induction l with
  | nil => intro seen; simp [dedupByLink.go]
  | cons r rs ih =>
    intro seen
    cases h : r.link with
    | none =>
      simp only [dedupByLink.go, h]
      exact ih seen
    | some s =>
      rw [dedupGo_cons_some seen r rs s h]
      by_cases hs : s ≠ "" ∧ s ∉ seen
      · rw [if_pos hs, dedupGo_cons_some seen r _ s h, if_pos hs, ih (s :: seen)]
      · rw [if_neg hs]
        exact ih seen

theorem dedupByLink_idem (l : List Record) :
    dedupByLink (dedupByLink l) = dedupByLink l :=
  dedupGo_idem l []

end WebScraper

namespace WebScraper

/-! ## Claim C2 -/

/-- C2, counterexample: the claim says price normalization returns no price
for `"1234567"` (and for any value ≥ 1,000,000), but `clean_price` has no
plausibility bound: `"1234567"` yields `"12345.67"`, and `"5000000.00"`
(value ≥ 1,000,000) is returned as is. -/
theorem c2_counterexample :
    clean_price "1234567" = some "12345.67" ∧
    clean_price "5000000.00" = some "5000000.00" := by decide

/-- C2 (amended): `clean_price` applies no plausibility bound — no value is
rejected for being ≤ 0 or ≥ 1,000,000.  `"1234567"` yields `"12345.67"`
(a decimal point is inserted before the last two digits of a long digit
run), while `"5000000.00"` (≥ 1,000,000) and `"0.00"` (≤ 0) are returned
unchanged. -/
theorem c2_no_plausibility_bound :
    clean_price "1234567" = some "12345.67" ∧
    clean_price "5000000.00" = some "5000000.00" ∧
    clean_price "0.00" = some "0.00" := by decide

/-! ## Claim C7 -/

/-- C7, counterexample: the claim says every returned price is fixed
2-decimal text, but the extractor returns `"9.5"` for a
`<span class="price">$9.5</span>` container. -/
theorem c7_counterexample :
    extract_price_main 12 nineFiftyCard none = some "9.5" ∧
    twoDecimalsB "9.5" = false := by decide

/-- C7 (amended): returned prices are not 2-decimal in general (a matched
token with an explicit separator keeps its original fraction, e.g.
`"9.5"`); only when the matched token is a separator-free digit run longer
than two characters does `clean_price` insert a point before the last two
digits, and exactly those results are fixed 2-decimal text. -/
theorem c7_two_decimals_for_digit_runs (s : String)
    (h1 : s.data ≠ []) (h2 : s.data.all Char.isDigit = true)
    (h3 : 2 < s.data.length) :
    ∃ t, clean_price s = some t ∧ twoDecimalsB t = true := by
  obtain ⟨c, cs, hc⟩ := List.exists_cons_of_ne_nil h1
  have h2' : (c :: cs).all Char.isDigit = true := hc ▸ h2
  have h3' : 2 < (c :: cs).length := hc ▸ h3
  have hdot : '.' ∉ (c :: cs) := dot_not_mem_of_digits _ h2'
  have hclean : clean_price s =
      some ⟨(c :: cs).take ((c :: cs).length - 2) ++
        '.' :: (c :: cs).drop ((c :: cs).length - 2)⟩ := by
    unfold clean_price
    rw [hc, numMatch_of_all c cs h2']
    simp only [map_comma_of_digits _ h2']
    rw [if_pos ⟨hdot, h3'⟩]
  refine ⟨_, hclean, ?_⟩
  have hdroplen : ((c :: cs).drop ((c :: cs).length - 2)).length = 2 := by
    rw [List.length_drop]
    omega
  obtain ⟨b1, b2, hb⟩ := List.length_eq_two.mp hdroplen
  have hmemdigit : ∀ x ∈ (c :: cs), x.isDigit = true := List.all_eq_true.mp h2'
  have hb1 : b1.isDigit = true := by
    have hmem : b1 ∈ (c :: cs).drop ((c :: cs).length - 2) := by rw [hb]; simp
    exact hmemdigit _ ((List.drop_sublist _ _).subset hmem)
  have hb2 : b2.isDigit = true := by
    have hmem : b2 ∈ (c :: cs).drop ((c :: cs).length - 2) := by rw [hb]; simp
    exact hmemdigit _ ((List.drop_sublist _ _).subset hmem)
  have hrev : ((c :: cs).take ((c :: cs).length - 2) ++
      '.' :: (c :: cs).drop ((c :: cs).length - 2)).reverse =
      b2 :: b1 :: '.' :: ((c :: cs).take ((c :: cs).length - 2)).reverse := by
    rw [hb]
    simp [List.reverse_append]
  have hall : (((c :: cs).take ((c :: cs).length - 2)).reverse).all
      (fun x => x ≠ '.') = true := by
    rw [List.all_eq_true]
    intro x hx
    have hx2 : x ∈ (c :: cs).take ((c :: cs).length - 2) := List.mem_reverse.mp hx
    have hxd : x.isDigit = true := hmemdigit _ ((List.take_sublist _ _).subset hx2)
    simp [digit_ne_dot x hxd]
  unfold twoDecimalsB
  rw [show (String.mk ((c :: cs).take ((c :: cs).length - 2) ++
      '.' :: (c :: cs).drop ((c :: cs).length - 2))).data =
      (c :: cs).take ((c :: cs).length - 2) ++
      '.' :: (c :: cs).drop ((c :: cs).length - 2) from rfl, hrev]
  show (b2.isDigit && b1.isDigit && decide ('.' = '.') &&
      (((c :: cs).take ((c :: cs).length - 2)).reverse.all
        fun x => decide (x ≠ '.'))) = true
  simp only [Bool.and_eq_true, decide_eq_true_eq]
  exact ⟨⟨⟨hb2, hb1⟩, trivial⟩, hall⟩

/-- C7, witness: the digit run `"12345"` cleans to `"123.45"`, which is
2-decimal. -/
theorem c7_witness :
    ("12345" : String).data ≠ [] ∧
    ∃ t, clean_price "12345" = some t ∧ twoDecimalsB t = true :=
  ⟨by decide, c7_two_decimals_for_digit_runs "12345" (by decide) (by decide) (by decide)⟩

/-! ## Claim C8 -/

/-- C8 (confirmed): when the robots.txt download or parse fails (the
oracle raises), `check_robots_txt` — a total function, so it never raises
itself — returns the permissive default: `can_fetch = true`,
`crawl_delay = 1`, tagged `"no_robots_txt"`. -/
theorem c8_robots_failure_permissive (cache : List (String × RobotsDecision))
    (url e : String)
    (h : cache.lookup (originOf url ++ "/robots.txt") = none) :
    check_robots_txt cache (Except.error e) url =
      ⟨url, "no_robots_txt", true, 1⟩ := by
  simp [check_robots_txt, h]

/-- C8, witness: an empty cache and a refused connection on a concrete
URL. -/
theorem c8_witness :
    (([] : List (String × RobotsDecision)).lookup
        (originOf "http://ex.com/page" ++ "/robots.txt") = none) ∧
    check_robots_txt [] (Except.error "connection refused") "http://ex.com/page" =
      ⟨"http://ex.com/page", "no_robots_txt", true, 1⟩ :=
  ⟨by decide,
   c8_robots_failure_permissive [] "http://ex.com/page" "connection refused" (by decide)⟩

/-! ## Claim C9 -/

/-- C9 (confirmed): the batch deduplication keyed on `link` alone never
leaves two records sharing a link, and the survivors form a sublist of the
input — they appear in input order, each at its link's first truthy
occurrence. -/
theorem c9_dedup_by_link (l : List Record) :
    (dedupByLink l).Sublist l ∧
    (dedupByLink l).Pairwise (fun a b => a.link ≠ b.link) :=
  ⟨dedupGo_sublist l [], dedupGo_pairwise l []⟩

/-! ## Claim C10 -/

/-- C10 (confirmed): in `src/main.py`'s response, `total_items` is the
length of the deduplicated list computed BEFORE the `data` field is
truncated to `product_limit * len(urls)`; `data` is never longer than
`total_items`, and on a concrete run with two unique records and
`product_limit = 1`, `len(urls) = 1`, `total_items = 2` strictly exceeds
the single returned record. -/
theorem c10_total_items_before_truncation :
    (∀ (all : List Record) (limit nurls : Nat),
      (mainFinalize all limit nurls).2 = (dedupTitleLink all).length ∧
      (mainFinalize all limit nurls).1.length ≤ (mainFinalize all limit nurls).2) ∧
    (mainFinalize [⟨some "A", some "L1", none⟩, ⟨some "B", some "L2", none⟩] 1 1).1.length <
      (mainFinalize [⟨some "A", some "L1", none⟩, ⟨some "B", some "L2", none⟩] 1 1).2 := by
  constructor
  · intro all limit nurls
    refine ⟨rfl, ?_⟩
    show ((insertionSortRec (dedupTitleLink all)).take (limit * nurls)).length ≤ _
    rw [List.length_take, insertionSortRec_length]
    exact min_le_right _ _
  · decide

end WebScraper

namespace WebScraper

/-! ## Oracles and states used by the workflow claims -/

/-- An analysis oracle reporting a static, non-framework page. -/
def staticAnalysis : String → AnalysisResult := fun _ => ⟨false, false, "beautifulsoup"⟩

/-- A robots oracle that forbids fetching. -/
def blockedRobots : String → RobotsDecision := fun u => ⟨u, "disallowed", false, 1⟩

/-- A robots oracle that allows fetching. -/
def allowRobots : String → RobotsDecision := fun u => ⟨u, "allowed", true, 1⟩

/-- A mid-run state right after a denying politeness check. -/
def blockedStateW : ScraperState :=
  { urls := ["http://ex.com"], url := none, analysis_result := none,
    robots_check := some ⟨"http://ex.com", "disallowed", false, 1⟩,
    extracted_data := [], error_msg := none, status := "analyzed" }

/-- A container whose only title source is the pattern cascade. -/
def titleCardW : Html :=
  .elem "div" [] [.elem "span" [("class", "name")] [.text "T"]]

/-! ## Claim C1 -/

/-- C1, counterexample: on the synthetic three-card page the cascade of
`src/webscrapper_api.py` finds 3 (≥ 2) containers, yet that pipeline does
NOT treat the page as a listing — it discards the container set
(`if len(containers) > 1: containers = []`) and, with no product links,
emits the single placeholder record instead of 3 records. -/
theorem c1_counterexample :
    (selectElems 12 synthListingPage wsContainerPred).length = 3 ∧
    wsExtractCore 12 "http://shop.example" synthListingPage 3 (fun _ => none) none =
      [⟨some "No title", some "http://shop.example", none⟩] := by decide

/-- C1 (amended): `src/main.py`'s pipeline behaves as claimed — its cascade
finds the 3 containers and `runBatch`'s per-URL extraction yields 3
records, titles in document order, price `"9.00"` each, with limit 3 —
while `src/webscrapper_api.py`'s pipeline empties the container list
whenever more than one container matches, so it extracts nothing from
listing pages. -/
theorem c1_main_listing_extraction :
    (selectElems 12 synthListingPage mainContainerPred).length = 3 ∧
    mainExtractCore 12 "http://shop.example" synthListingPage 3 (fun _ => none) =
      [⟨some "Item One", some "http://shop.example", some "9.00"⟩,
       ⟨some "Item Two", some "http://shop.example", some "9.00"⟩,
       ⟨some "Item Three", some "http://shop.example", some "9.00"⟩] ∧
    (wsEffectiveContainers 12 synthListingPage).length = 0 := by decide

/-! ## Claim C3 -/

/-- C3, counterexample: a page with two product containers whose `<h2>`
titles have 250 characters produces records whose titles keep all 250
characters — the heading path of `extract_product_info` (src/main.py:141)
never truncates. -/
theorem c3_counterexample :
    mainExtractCore 12 "http://shop.example" longTitlePage 5 (fun _ => none) =
      [⟨some longTitleA, some "http://shop.example", none⟩,
       ⟨some longTitleB, some "http://shop.example", none⟩] ∧
    200 < longTitleA.length := by decide

/-- C3 (amended): only the title-pattern and image-alt paths of
`src/main.py`'s `extract_product_info` truncate to 200 characters (as does
its detail-page path); when no heading supplies the title, the produced
title is indeed at most 200 characters.  Heading-path titles — and every
title produced by `src/webscrapper_api.py` — are emitted untruncated. -/
theorem c3_pattern_and_alt_titles_truncated (fuel : Nat) (c : Html)
    (hh : headingTitle fuel c = none) (t : String)
    (ht : mainTitleRaw fuel c = some t) : t.length ≤ 200 := by
  simp only [mainTitleRaw, hh] at ht
  cases hp : patternTitle fuel c mainTitlePatterns with
  | some u =>
    simp only [hp] at ht
    injection ht with h2
    rw [← h2]
    exact strTake_length_le _ _
  | none =>
    simp only [hp] at ht
    cases hi : findElem fuel c (fun e => tagOf e == "img") with
    | none => simp [hi] at ht
    | some img =>
      simp only [hi] at ht
      cases ha : getAttr "alt" img with
      | none => simp [ha] at ht
      | some a =>
        simp only [ha] at ht
        by_cases he : a ≠ ""
        · rw [if_pos he] at ht
          injection ht with h2
          rw [← h2]
          exact strTake_length_le _ _
        · rw [if_neg he] at ht
          exact absurd ht (by simp)

/-- C3, witness: a container whose title comes from the pattern cascade. -/
theorem c3_witness :
    headingTitle 12 titleCardW = none ∧
    mainTitleRaw 12 titleCardW = some "T" ∧
    ("T" : String).length ≤ 200 :=
  ⟨by decide, by decide,
   c3_pattern_and_alt_titles_truncated 12 titleCardW (by decide) "T" (by decide)⟩

/-! ## Claim C4 -/

/-- C4, counterexample: a batch on one URL whose politeness check denies
fetching terminates with status `"failed"`, not `"blocked"` — `save_node`
runs unconditionally after the blocked `extract_node` and overwrites the
status. -/
theorem c4_counterexample :
    (runWorkflow 12 staticAnalysis blockedRobots (fun _ => none) (fun _ => [])
      (fun _ => []) ["http://ex.com"]).status = "failed" ∧
    (runWorkflow 12 staticAnalysis blockedRobots (fun _ => none) (fun _ => [])
      (fun _ => []) ["http://ex.com"]).status ≠ "blocked" := by decide

/-- C4 (amended): when the politeness check yields `can_fetch = false`,
`extract_node` sets status `"blocked"` and performs no per-URL extraction
(the record list is left untouched), but the graph's unconditional edge
then runs `save_node`, which finds no data and overwrites the terminal
status with `"failed"` — `"blocked"` is not the batch's final status. -/
theorem c4_blocked_overwritten_by_save (fuel : Nat)
    (fetchO : String → Option Html) (bsO selO : String → List Record)
    (s : ScraperState) (r : RobotsDecision)
    (hr : s.robots_check = some r) (hcf : r.can_fetch = false) :
    (extract_node fuel fetchO bsO selO s).status = "blocked" ∧
    (extract_node fuel fetchO bsO selO s).extracted_data = s.extracted_data ∧
    (s.extracted_data = [] →
      (save_node (extract_node fuel fetchO bsO selO s)).status = "failed") := by
  refine ⟨?_, ?_, ?_⟩
  · simp [extract_node, hr, hcf]
  · simp [extract_node, hr, hcf]
  · intro he
    simp [extract_node, save_node, hr, hcf, he]

/-- C4, witness: the blocked mid-run state on a concrete URL. -/
theorem c4_witness :
    blockedStateW.robots_check = some ⟨"http://ex.com", "disallowed", false, 1⟩ ∧
    ((extract_node 12 (fun _ => none) (fun _ => []) (fun _ => []) blockedStateW).status
        = "blocked" ∧
     (extract_node 12 (fun _ => none) (fun _ => []) (fun _ => [])
        blockedStateW).extracted_data = blockedStateW.extracted_data ∧
     (blockedStateW.extracted_data = [] →
       (save_node (extract_node 12 (fun _ => none) (fun _ => []) (fun _ => [])
         blockedStateW)).status = "failed")) :=
  ⟨rfl, c4_blocked_overwritten_by_save 12 (fun _ => none) (fun _ => []) (fun _ => [])
    blockedStateW ⟨"http://ex.com", "disallowed", false, 1⟩ rfl rfl⟩

/-! ## Claim C5 -/

/-- C5, counterexample: on a page with no containers, no product links and
no `<title>`, `src/webscrapper_api.py`'s pipeline emits the placeholder
with title `"No title"`, not the claimed `"No products found"`. -/
theorem c5_counterexample :
    wsExtractCore 12 "http://shop.example" bareDoc 5 (fun _ => none) none =
      [⟨some "No title", some "http://shop.example", none⟩] ∧
    ("No title" : String) ≠ "No products found" := by decide

/-- C5 (amended): a URL whose extraction ends with zero records after all
fallback stages yields exactly one placeholder record
`{title: document title or default, link: url, price: null}` — but the
default differs per variant: `"No products found"` in `src/main.py`,
`"No title"` in `src/webscrapper_api.py`. -/
theorem c5_placeholder_record (fuel : Nat) (url : String) (doc : Html)
    (limit : Nat) (fetchPage : String → Option Html) (llmOut : Option (List Record))
    (hmain : mainStagesResult fuel url doc limit fetchPage = [])
    (hws : wsStagesResult fuel url doc limit fetchPage llmOut = []) :
    mainExtractCore fuel url doc limit fetchPage =
      [⟨some (mainPlaceholderTitle fuel doc), some url, none⟩] ∧
    wsExtractCore fuel url doc limit fetchPage llmOut =
      [⟨some (wsPlaceholderTitle fuel doc), some url, none⟩] := by
  constructor
  · simp [mainExtractCore, hmain]
  · simp [wsExtractCore, hws]

/-- C5, witness: the bare page yields empty stages in both variants and
hence the two placeholder records. -/
theorem c5_witness :
    mainStagesResult 12 "http://shop.example" bareDoc 5 (fun _ => none) = [] ∧
    (mainExtractCore 12 "http://shop.example" bareDoc 5 (fun _ => none) =
      [⟨some (mainPlaceholderTitle 12 bareDoc), some "http://shop.example", none⟩] ∧
     wsExtractCore 12 "http://shop.example" bareDoc 5 (fun _ => none) none =
      [⟨some (wsPlaceholderTitle 12 bareDoc), some "http://shop.example", none⟩]) :=
  ⟨by decide,
   c5_placeholder_record 12 "http://shop.example" bareDoc 5 (fun _ => none) none
     (by decide) (by decide)⟩

/-! ## Claim C6 -/

/-- Models `save_node`'s output is always a fixed point of the link
deduplication. -/
theorem dedup_save_fixed (s : ScraperState) :
    dedupByLink ((save_node s).extracted_data) = (save_node s).extracted_data := by
  by_cases h : s.extracted_data.isEmpty
  · have he : s.extracted_data = [] := List.isEmpty_iff.mp h
    simp [save_node, h, he]
    rfl
  · simp [save_node, h, dedupByLink_idem]

/-- C6, counterexample: with `use_selenium` forced, two URLs whose selenium
extraction returns the same record produce a response holding that record
twice — the returned list has NOT passed the link deduplication (it is not
a fixed point of it). -/
theorem c6_counterexample :
    (scrape_endpoint 12 staticAnalysis allowRobots (fun _ => none) (fun _ => [])
      (fun _ => [⟨some "T", some "http://x.com/p", some "9.99"⟩])
      ["http://a.com", "http://b.com"] true).2 =
      [⟨some "T", some "http://x.com/p", some "9.99"⟩,
       ⟨some "T", some "http://x.com/p", some "9.99"⟩] ∧
    dedupByLink
      [⟨some "T", some "http://x.com/p", some "9.99"⟩,
       ⟨some "T", some "http://x.com/p", some "9.99"⟩] ≠
      [⟨some "T", some "http://x.com/p", some "9.99"⟩,
       ⟨some "T", some "http://x.com/p", some "9.99"⟩] := by decide

/-- C6 (amended): only the non-forced path returns records that have passed
the batch link deduplication (its output is a fixed point of
`dedupByLink`); the forced-selenium path replaces the workflow's records
with the raw concatenation of the per-URL selenium results and returns
them without any deduplication. -/
theorem c6_dedup_only_without_selenium (fuel : Nat)
    (aO : String → AnalysisResult) (rO : String → RobotsDecision)
    (fO : String → Option Html) (bO sO : String → List Record)
    (urls : List String) :
    dedupByLink ((scrape_endpoint fuel aO rO fO bO sO urls false).2) =
      (scrape_endpoint fuel aO rO fO bO sO urls false).2 ∧
    (scrape_endpoint fuel aO rO fO bO sO urls true).2 =
      urls.foldl (fun acc u => acc ++ sO u) [] := by
  constructor
  · exact dedup_save_fixed _
  · rfl

end WebScraper
